import Mathlib

/-! Verification of the easing catalog in `src/util/anim_ease.ts` and of the
object transform utilities in `src/util/misc/objectTransforms.ts` of
fabric.js.

Polynomial and piecewise-quadratic easings are embedded over `ℚ`: their
source uses only field operations, so the embedding is exact and executable.
Exponential and elastic easings use `2 ^ x`, `sin` and `arcsin`, so they are
embedded over `ℝ`.

`matrix.ts`, `constants.ts` and the methods of the external drawable-object
contract (`set`, `setPositionByOrigin`, `rotate`, `calcOwnMatrix`) are not
part of the given sources; where a claim needs them they are modelled from
the spec, each with a doc comment saying so. -/

namespace FabricSpec

open Classical

/-! ## Easing functions with purely rational formulas (anim_ease.ts) -/

/-- From anim_ease.ts line 40: `easeOutCubic = (t, b, c, d) =>
    c * ((t /= d - 1) * t ** 2 + 1) + b`.
Note `t /= d - 1` assigns `t / (d - 1)` (the whole right-hand side is the
divisor), not `t / d - 1`. -/
def easeOutCubic (t b c d : ℚ) : ℚ :=
  let t1 := t / (d - 1)
  c * (t1 * t1 ^ 2 + 1) + b

/-- From anim_ease.ts line 88: `easeOutQuint = (t, b, c, d) =>
    c * ((t /= d - 1) * t ** 4 + 1) + b`, with the same parse of
`t /= d - 1` as `easeOutCubic`. -/
def easeOutQuint (t b c d : ℚ) : ℚ :=
  let t1 := t / (d - 1)
  c * (t1 * t1 ^ 4 + 1) + b

/-- From anim_ease.ts lines 316-322: `easeInOutQuad`. The source first
rescales `t /= d / 2`; the second branch decrements `t` (`--t`) and returns
`-c / 2 * ((t) * (t - 2) - 1) + b`. -/
def easeInOutQuad (t b c d : ℚ) : ℚ :=
  let t1 := t / (d / 2)
  if t1 < 1 then c / 2 * t1 ^ 2 + b
  else -c / 2 * ((t1 - 1) * (t1 - 1 - 2) - 1) + b

/-- From anim_ease.ts lines 269-282: `easeOutBounce`. The source rescales
`t /= d` and then selects one of four quadratic segments; the in-place
updates `t -= 1.5 / 2.75` etc. are inlined here. -/
def easeOutBounce (t b c d : ℚ) : ℚ :=
  if t / d < 1 / 2.75 then
    c * (7.5625 * (t / d) * (t / d)) + b
  else if t / d < 2 / 2.75 then
    c * (7.5625 * (t / d - 1.5 / 2.75) * (t / d - 1.5 / 2.75) + 0.75) + b
  else if t / d < 2.5 / 2.75 then
    c * (7.5625 * (t / d - 2.25 / 2.75) * (t / d - 2.25 / 2.75) + 0.9375) + b
  else
    c * (7.5625 * (t / d - 2.625 / 2.75) * (t / d - 2.625 / 2.75) + 0.984375) + b

/-! ## Easing functions needing transcendental operations (anim_ease.ts) -/

/-- Modelled from the spec: `constants.ts` is not under src/; `twoMathPi`
is the constant 2π used by the elastic formulas (spec section 4.1 writes the
waveform with `2π`). -/
noncomputable def twoMathPi : ℝ := 2 * Real.pi

/-- Result record `{ a, c, p, s }` returned by `normalize`
(anim_ease.ts line 29). -/
structure TNormalized where
  a : ℝ
  c : ℝ
  p : ℝ
  s : ℝ

/-- From anim_ease.ts lines 15-30: `normalize(a, c, p, s)`.
If `a < Math.abs(c)` it sets `a = c` and `s = p / 4`; otherwise it sets
`s = p / twoMathPi * Math.asin(1)` when `c === 0 && a === 0`, else
`s = p / twoMathPi * Math.asin(c / a)`.  The incoming `s` is overwritten on
every path. -/
noncomputable def normalize (a c p s : ℝ) : TNormalized :=
  if a < |c| then ⟨c, c, p, p / 4⟩
  else if c = 0 ∧ a = 0 then ⟨a, c, p, p / twoMathPi * Real.arcsin 1⟩
  else ⟨a, c, p, p / twoMathPi * Real.arcsin (c / a)⟩

/-- From anim_ease.ts lines 32-34: the shared elastic waveform
`a * 2 ** (10 * (t -= 1)) * sin((t * d - s) * twoMathPi / p)`; after the
in-place decrement both occurrences of `t` read `t - 1`. -/
noncomputable def elastic (a s p t d : ℝ) : ℝ :=
  a * (2 : ℝ) ^ (10 * (t - 1)) * Real.sin (((t - 1) * d - s) * twoMathPi / p)

/-- From anim_ease.ts line 124: `easeInExpo = (t, b, c, d) =>
    (t === 0) ? b : c * 2 ** (10 * (t / d - 1)) + b`. -/
noncomputable def easeInExpo (t b c d : ℝ) : ℝ :=
  if t = 0 then b else c * (2 : ℝ) ^ (10 * (t / d - 1)) + b

/-- From anim_ease.ts line 130: `easeOutExpo = (t, b, c, d) =>
    (t === d) ? b + c : c * -(2 ** (-10 * t / d) + 1) + b`.
The negation applies to the whole sum `2 ** (-10 * t / d) + 1`. -/
noncomputable def easeOutExpo (t b c d : ℝ) : ℝ :=
  if t = d then b + c else c * -((2 : ℝ) ^ (-10 * t / d) + 1) + b

/-- From anim_ease.ts lines 136-148: `easeInOutExpo` with explicit endpoint
checks `t === 0` and `t === d`, rescaling `t /= d / 2`, and second branch
`c / 2 * -(2 ** (-10 * --t) + 2) + b` (the predecrement makes the exponent
`-10 * (t - 1)`; the negation applies to the whole sum). -/
noncomputable def easeInOutExpo (t b c d : ℝ) : ℝ :=
  if t = 0 then b
  else if t = d then b + c
  else
    let t1 := t / (d / 2)
    if t1 < 1 then c / 2 * (2 : ℝ) ^ (10 * (t1 - 1)) + b
    else c / 2 * -((2 : ℝ) ^ (-10 * (t1 - 1)) + 2) + b

/-- The closed-form expression of the `t < 1` branch of `easeInOutExpo`
(anim_ease.ts line 145), as a function of the normalized time `t1`:
`c / 2 * 2 ** (10 * (t1 - 1)) + b`. -/
noncomputable def easeInOutExpoInBranch (t1 b c : ℝ) : ℝ :=
  c / 2 * (2 : ℝ) ^ (10 * (t1 - 1)) + b

/-- From anim_ease.ts lines 178-193: `easeInElastic`.  Returns `b` when
`t === 0`; rescales `t /= d` and returns `b + c` when the rescaled time is
`1`; otherwise sets `p = d * 0.3` (the `if (!p)` branch always fires since
`p` starts at 0), normalizes, and returns `-elastic(...) + b`. -/
noncomputable def easeInElastic (t b c d : ℝ) : ℝ :=
  let s := (1.70158 : ℝ)
  let a := c
  if t = 0 then b
  else if t / d = 1 then b + c
  else
    let p := d * 0.3
    let n := normalize a c p s;
    -(elastic n.a n.s n.p (t / d) d) + b

/-- From anim_ease.ts lines 199-214: `easeOutElastic`, with the same
endpoint checks as `easeInElastic` and tail formula
`a' * 2 ** (-10 * t) * sin((t * d - s') * twoMathPi / p') + c' + b` on the
normalized components. -/
noncomputable def easeOutElastic (t b c d : ℝ) : ℝ :=
  let s := (1.70158 : ℝ)
  let a := c
  if t = 0 then b
  else if t / d = 1 then b + c
  else
    let p := d * 0.3
    let n := normalize a c p s
    n.a * (2 : ℝ) ^ (-10 * (t / d)) *
      Real.sin ((t / d * d - n.s) * twoMathPi / n.p) + n.c + b

/-! ## Object transform utilities (misc/objectTransforms.ts) -/

/-- The `TMat2D` matrix type `[a, b, c, d, e, f]` of the source: an affine
map with linear part `a b c d` and translation `e f`. -/
@[ext]
structure TMat2D where
  a : ℚ
  b : ℚ
  c : ℚ
  d : ℚ
  e : ℚ
  f : ℚ
deriving DecidableEq, Repr

/-- Modelled from the spec: `matrix.ts` is not under src/.  Standard 2D
affine matrix product `A · B` of six-coefficient matrices (spec section 6,
`multiply(m1, m2)`). -/
def multiplyTransformMatrices (A B : TMat2D) : TMat2D :=
  ⟨A.a * B.a + A.c * B.b,
   A.b * B.a + A.d * B.b,
   A.a * B.c + A.c * B.d,
   A.b * B.c + A.d * B.d,
   A.a * B.e + A.c * B.f + A.e,
   A.b * B.e + A.d * B.f + A.f⟩

/-- Modelled from the spec: `matrix.ts` is not under src/.  Standard 2D
affine inverse (spec section 6, `invert(matrix)`): invert the linear part
and carry the translation through the inverted linear part, negated. -/
def invertTransform (m : TMat2D) : TMat2D :=
  let det := m.a * m.d - m.b * m.c
  let a := m.d / det
  let b := -m.b / det
  let c := -m.c / det
  let d := m.a / det
  ⟨a, b, c, d, -(a * m.e + c * m.f), -(b * m.e + d * m.f)⟩

/-- Modelled from the spec: `applyTransformToObject` overwrites the
object's transform fields from the decomposition of `transform` and
repositions it; under the decompose/compose inverse-pair contract (spec
section 3: recomposing the decomposed components "must reproduce the
original matrix") the object's recomputed own matrix equals the applied
transform.  At the matrix level we therefore track the effective own matrix,
which this call replaces with `transform`. -/
def applyTransformToObjectM (_own transform : TMat2D) : TMat2D :=
  transform

/-- From objectTransforms.ts lines 21-25: `removeTransformFromObject`
computes `multiplyTransformMatrices(invertTransform(transform), ownMatrix)`
and applies it to the object; stated at the level of effective own
matrices. -/
def removeTransformFromObjectM (own transform : TMat2D) : TMat2D :=
  applyTransformToObjectM own
    (multiplyTransformMatrices (invertTransform transform) own)

/-- From objectTransforms.ts lines 36-40: `addTransformToObject` computes
`multiplyTransformMatrices(transform, ownMatrix)` and applies it; stated at
the level of effective own matrices. -/
def addTransformToObjectM (own transform : TMat2D) : TMat2D :=
  applyTransformToObjectM own (multiplyTransformMatrices transform own)

/-- A 2D point, as in point.class.ts (a plain immutable pair here). -/
structure Point where
  x : ℚ
  y : ℚ
deriving DecidableEq, Repr

/-- Named horizontal anchor for `setPositionByOrigin`. -/
inductive TOriginX where
  | left
  | center
  | right
deriving DecidableEq, Repr

/-- Named vertical anchor for `setPositionByOrigin`. -/
inductive TOriginY where
  | top
  | center
  | bottom
deriving DecidableEq, Repr

/-- The external drawable-object contract of the spec (section 6): mutable
fields `{scaleX, scaleY, skewX, skewY, angle, flipX, flipY, left, top}`.
`posAnchor`, `posOriginX`, `posOriginY` record the last named-anchor
repositioning (see `setPositionByOrigin`): converting the anchor back to
`left`/`top` needs external geometry that is not under src/. -/
structure FabricObject where
  scaleX : ℚ
  scaleY : ℚ
  skewX : ℚ
  skewY : ℚ
  angle : ℚ
  left : ℚ
  top : ℚ
  flipX : Bool
  flipY : Bool
  posAnchor : Point
  posOriginX : TOriginX
  posOriginY : TOriginY
deriving DecidableEq, Repr

/-- The output record of the external `qrDecompose` primitive: angle,
scales, skews and translation.  Per the spec (section 4.2) the current
decomposition yields no flip components, so the record has none. -/
structure TQrDecomposeOut where
  angle : ℚ
  scaleX : ℚ
  scaleY : ℚ
  skewX : ℚ
  skewY : ℚ
  translateX : ℚ
  translateY : ℚ
deriving DecidableEq, Repr

/-- Modelled from the spec: `setPositionByOrigin` (a method of the external
object contract, not under src/) repositions the object so that the given
point sits at the named anchor; we record the anchor point and origin
names, since the induced `left`/`top` depend on external geometry. -/
def setPositionByOrigin (o : FabricObject) (pos : Point)
    (originX : TOriginX) (originY : TOriginY) : FabricObject :=
  { o with posAnchor := pos, posOriginX := originX, posOriginY := originY }

/-- From objectTransforms.ts lines 48-56: `applyTransformToObject`,
parameterized by the external `qrDecompose` primitive.  The source
destructures `{translateX, translateY, scaleX, scaleY, ...otherOptions}`
from the decomposition (so `otherOptions` is `{angle, skewX, skewY}`), sets
`flipX = flipY = false`, assigns `otherOptions`, sets the scales, and calls
`setPositionByOrigin(center, 'center', 'center')` with
`center = (translateX, translateY)`. -/
def applyTransformToObject (qrDecompose : TMat2D → TQrDecomposeOut)
    (object : FabricObject) (transform : TMat2D) : FabricObject :=
  let dec := qrDecompose transform
  let center : Point := ⟨dec.translateX, dec.translateY⟩
  let object1 := { object with flipX := false, flipY := false }
  let object2 :=
    { object1 with angle := dec.angle, skewX := dec.skewX, skewY := dec.skewY }
  let object3 := { object2 with scaleX := dec.scaleX, scaleY := dec.scaleY }
  setPositionByOrigin object3 center TOriginX.center TOriginY.center

/-- Modelled from the spec: the object's rotation-setting method (external,
not under src/) sets the angle; the spec's explicit contract for
`resetObjectTransform` (section 4.2) is that position fields are left
untouched, so `rotate` here changes only `angle`. -/
def rotate (o : FabricObject) (angle : ℚ) : FabricObject :=
  { o with angle := angle }

/-- From objectTransforms.ts lines 63-71: `resetObjectTransform` sets
`scaleX = scaleY = 1`, `skewX = skewY = 0`, `flipX = flipY = false` and
calls `target.rotate(0)`. -/
def resetObjectTransform (target : FabricObject) : FabricObject :=
  rotate
    { target with
      scaleX := 1, scaleY := 1, skewX := 0, skewY := 0,
      flipX := false, flipY := false } 0

/-- The return record of `saveObjectTransform`
(`TComposeMatrixArgs & { left, top }`), fields in source order. -/
structure TSavedTransform where
  scaleX : ℚ
  scaleY : ℚ
  skewX : ℚ
  skewY : ℚ
  angle : ℚ
  left : ℚ
  flipX : Bool
  flipY : Bool
  top : ℚ
deriving DecidableEq, Repr

/-- From objectTransforms.ts lines 80-92: `saveObjectTransform` returns a
fresh record copying the nine listed fields from the target. -/
def saveObjectTransform (target : FabricObject) : TSavedTransform :=
  { scaleX := target.scaleX
    scaleY := target.scaleY
    skewX := target.skewX
    skewY := target.skewY
    angle := target.angle
    left := target.left
    flipX := target.flipX
    flipY := target.flipY
    top := target.top }

/-! ## Helper lemmas -/

/-- Dividing both sides of an inequality by a positive rational preserves
the inequality. -/
theorem div_le_div_of_le_pos {x y z : ℚ} (h : x ≤ y) (hz : 0 < z) :
    x / z ≤ y / z := by
  rw [div_eq_mul_inv, div_eq_mul_inv]
  exact mul_le_mul_of_nonneg_right h (inv_nonneg.2 hz.le)

/-- A quadratic centred at `m` grows to the right of the vertex. -/
theorem quad_vertex_mono {x y m : ℚ} (hxy : x ≤ y) (hm : m ≤ x) :
    (x - m) * (x - m) ≤ (y - m) * (y - m) := by
  nlinarith

/-- A quadratic centred at `m` shrinks while approaching the vertex from
the left. -/
theorem quad_vertex_anti {x y m : ℚ} (hxy : x ≤ y) (hm : y ≤ m) :
    (y - m) * (y - m) ≤ (x - m) * (x - m) := by
  nlinarith

/-! ## Claim theorems -/

/-- Claim C1, evaluation at the failing inputs: the "out" cubic, quintic
and exponential curves violate the boundary conditions.  With b = 0, c = 1,
d = 2, easeOutCubic and easeOutQuint return 1 = b + c at t = 0 (expected b)
and 9 resp. 33 at t = d (expected b + c = 1), because `t /= d - 1` divides
by `d - 1`; easeOutExpo returns -2 at t = 0 (expected b = 0) because the
negation covers the whole sum `2 ** (-10 t / d) + 1`. -/
theorem easeOut_boundary_bug :
    easeOutCubic 0 0 1 2 = 1 ∧ easeOutQuint 0 0 1 2 = 1 ∧
    easeOutCubic 2 0 1 2 = 9 ∧ easeOutQuint 2 0 1 2 = 33 ∧
    easeOutExpo 0 0 1 2 = -2 := by
  refine ⟨by norm_num [easeOutCubic], by norm_num [easeOutQuint],
    by norm_num [easeOutCubic], by norm_num [easeOutQuint], ?_⟩
  unfold easeOutExpo
  rw [if_neg (by norm_num : (0 : ℝ) ≠ 2)]
  have h0 : (-10 : ℝ) * 0 / 2 = 0 := by norm_num
  rw [h0, Real.rpow_zero]
  norm_num

/-- Claim C2, evaluation at the failing input: at the midpoint t = d / 2
(normalized time 1) the first branch of easeInOutExpo has value b + c / 2,
but easeInOutExpo itself (taking the second branch there) returns
b - 3 c / 2: with b = 0, c = 1, d = 2 the values are 1 / 2 versus -(3 / 2),
so the in-out exponential curve is not continuous at the midpoint.  The
in-out quadratic curve, by contrast, does take the value 1 / 2 there. -/
theorem easeInOutExpo_midpoint_jump :
    easeInOutExpoInBranch 1 0 1 = 1 / 2 ∧ easeInOutQuad 1 0 1 2 = 1 / 2 ∧
    easeInOutExpo 1 0 1 2 = -(3 / 2) := by
  refine ⟨?_, by norm_num [easeInOutQuad], ?_⟩
  · unfold easeInOutExpoInBranch
    have h0 : (10 : ℝ) * (1 - 1) = 0 := by norm_num
    rw [h0, Real.rpow_zero]
    norm_num
  · unfold easeInOutExpo
    rw [if_neg (by norm_num : (1 : ℝ) ≠ 0), if_neg (by norm_num : (1 : ℝ) ≠ 2)]
    have h1 : (1 : ℝ) / (2 / 2) = 1 := by norm_num
    simp only [h1]
    rw [if_neg (by norm_num : ¬(1 : ℝ) < 1)]
    have h0 : (-10 : ℝ) * (1 - 1) = 0 := by norm_num
    rw [h0, Real.rpow_zero]
    norm_num

/-- Claim C3: for every transform M with invertible linear part and every
effective own matrix O, removing M and then adding M back restores the
effective own matrix exactly. -/
theorem removeThenAddTransform_roundtrip (M O : TMat2D)
    (hdet : M.a * M.d - M.b * M.c ≠ 0) :
    addTransformToObjectM (removeTransformFromObjectM O M) M = O := by
  unfold addTransformToObjectM removeTransformFromObjectM
    applyTransformToObjectM multiplyTransformMatrices invertTransform
  ext <;> field_simp <;> ring

/-- Witness for claim C3 with M = [2,0,0,3,5,7] (det 6) and
O = [1,2,3,4,5,6]. -/
theorem removeThenAddTransform_roundtrip_witness :
    ((⟨2, 0, 0, 3, 5, 7⟩ : TMat2D).a * (⟨2, 0, 0, 3, 5, 7⟩ : TMat2D).d -
        (⟨2, 0, 0, 3, 5, 7⟩ : TMat2D).b * (⟨2, 0, 0, 3, 5, 7⟩ : TMat2D).c ≠ 0) ∧
      addTransformToObjectM
        (removeTransformFromObjectM ⟨1, 2, 3, 4, 5, 6⟩ ⟨2, 0, 0, 3, 5, 7⟩)
        ⟨2, 0, 0, 3, 5, 7⟩ = (⟨1, 2, 3, 4, 5, 6⟩ : TMat2D) :=
  ⟨by norm_num,
    removeThenAddTransform_roundtrip ⟨2, 0, 0, 3, 5, 7⟩ ⟨1, 2, 3, 4, 5, 6⟩
      (by norm_num)⟩

/-- Claim C4: after applyTransformToObject, whatever the decomposition
primitive returns, the flips are false, the angle, skews and scales equal
the decomposition of the transform, and the object has been repositioned so
that the decomposed translation point is its centre anchor (not its
top-left). -/
theorem applyTransformToObject_effects
    (qr : TMat2D → TQrDecomposeOut) (o : FabricObject) (m : TMat2D) :
    (applyTransformToObject qr o m).flipX = false ∧
    (applyTransformToObject qr o m).flipY = false ∧
    (applyTransformToObject qr o m).angle = (qr m).angle ∧
    (applyTransformToObject qr o m).skewX = (qr m).skewX ∧
    (applyTransformToObject qr o m).skewY = (qr m).skewY ∧
    (applyTransformToObject qr o m).scaleX = (qr m).scaleX ∧
    (applyTransformToObject qr o m).scaleY = (qr m).scaleY ∧
    (applyTransformToObject qr o m).posAnchor =
      ⟨(qr m).translateX, (qr m).translateY⟩ ∧
    (applyTransformToObject qr o m).posOriginX = TOriginX.center ∧
    (applyTransformToObject qr o m).posOriginY = TOriginY.center :=
  ⟨rfl, rfl, rfl, rfl, rfl, rfl, rfl, rfl, rfl, rfl⟩

/-- Claim C7, counterexample at d = 0: the claim ranges over all finite
b, c, d, but with duration d = 0 the two endpoints of easeInOutExpo
coincide and the `t === 0` check wins, so at t = d the function returns
b = 0 rather than b + c = 0 + 1. -/
theorem easeInOutExpo_zero_duration : easeInOutExpo 0 0 1 0 ≠ 0 + 1 := by
  unfold easeInOutExpo
  norm_num

/-- Claim C7 (amended): easeInExpo returns exactly b at t = 0 and
easeOutExpo returns exactly b + c at t = d by explicit checks, for every
duration; easeInOutExpo returns exactly b at t = 0, and exactly b + c at
t = d provided d ≠ 0, by explicit checks on both endpoints. -/
theorem expo_endpoint_checks (b c d : ℝ) :
    easeInExpo 0 b c d = b ∧ easeOutExpo d b c d = b + c ∧
    easeInOutExpo 0 b c d = b ∧ (d ≠ 0 → easeInOutExpo d b c d = b + c) := by
  refine ⟨?_, ?_, ?_, fun hd => ?_⟩
  · unfold easeInExpo
    simp
  · unfold easeOutExpo
    simp
  · unfold easeInOutExpo
    simp
  · unfold easeInOutExpo
    simp [hd]

/-- Witness for the amended claim C7 at b = 0, c = 1, d = 2. -/
theorem expo_endpoint_checks_witness :
    (2 : ℝ) ≠ 0 ∧ easeInOutExpo 2 0 1 2 = 0 + 1 :=
  ⟨by norm_num, (expo_endpoint_checks 0 1 2).2.2.2 (by norm_num)⟩

/-- Claim C8: resetObjectTransform leaves left and top unchanged while
setting unit scales, zero skews, cleared flips and angle 0. -/
theorem resetObjectTransform_effects (target : FabricObject) :
    (resetObjectTransform target).left = target.left ∧
    (resetObjectTransform target).top = target.top ∧
    (resetObjectTransform target).scaleX = 1 ∧
    (resetObjectTransform target).scaleY = 1 ∧
    (resetObjectTransform target).skewX = 0 ∧
    (resetObjectTransform target).skewY = 0 ∧
    (resetObjectTransform target).flipX = false ∧
    (resetObjectTransform target).flipY = false ∧
    (resetObjectTransform target).angle = 0 :=
  ⟨rfl, rfl, rfl, rfl, rfl, rfl, rfl, rfl, rfl⟩

/-- Claim C9: saveObjectTransform returns exactly the record of the
target's nine transform fields at call time; being a plain value record of
copied fields, it shares no state with the target (and the embedding's
functions cannot mutate their argument). -/
theorem saveObjectTransform_snapshot (target : FabricObject) :
    saveObjectTransform target =
      ⟨target.scaleX, target.scaleY, target.skewX, target.skewY,
       target.angle, target.left, target.flipX, target.flipY, target.top⟩ :=
  rfl

/-- Claim C10: the elastic in/out curves return exactly b at t = 0 and
exactly b + c at t = d (for d ≠ 0) via the explicit endpoint checks taken
before the elastic waveform formula is evaluated. -/
theorem elastic_endpoint_checks (b c d : ℝ) (hd : d ≠ 0) :
    easeInElastic 0 b c d = b ∧ easeOutElastic 0 b c d = b ∧
    easeInElastic d b c d = b + c ∧ easeOutElastic d b c d = b + c := by
  refine ⟨?_, ?_, ?_, ?_⟩
  · unfold easeInElastic
    simp
  · unfold easeOutElastic
    simp
  · unfold easeInElastic
    simp [hd, div_self hd]
  · unfold easeOutElastic
    simp [hd, div_self hd]

/-- Witness for claim C10 at b = 0, c = 1, d = 2. -/
theorem elastic_endpoint_checks_witness :
    (2 : ℝ) ≠ 0 ∧
      (easeInElastic 0 0 1 2 = 0 ∧ easeOutElastic 0 0 1 2 = 0 ∧
        easeInElastic 2 0 1 2 = 0 + 1 ∧ easeOutElastic 2 0 1 2 = 0 + 1) :=
  ⟨by norm_num, elastic_endpoint_checks 0 1 2 (by norm_num)⟩

/-- Claim C5, counterexample: with a = 3, c = -5 (so a < |c|), normalize
returns amplitude c = -5, not the claimed |c| = 5. -/
theorem normalize_clamp_counterexample :
    (normalize 3 (-5) 1 1).a ≠ |(-5 : ℝ)| := by
  have habs : |(-5 : ℝ)| = 5 := by
    rw [abs_of_neg (by norm_num : (-5 : ℝ) < 0)]
    norm_num
  have h3 : (3 : ℝ) < |(-5 : ℝ)| := by
    rw [habs]
    norm_num
  unfold normalize
  rw [if_pos h3, habs]
  show (-5 : ℝ) ≠ 5
  norm_num

/-- Claim C5 (amended): if a < |c| then normalize returns amplitude c
(which equals |c| only when c is nonnegative) and phase shift p / 4;
otherwise a, c and p are returned unchanged and the phase shift is
p / (2π) · asin(c / a), except that when a = 0 and c = 0 it is
p / (2π) · asin 1 — which also simplifies to p / 4. -/
theorem normalize_branches (a c p s : ℝ) :
    (a < |c| → normalize a c p s = ⟨c, c, p, p / 4⟩) ∧
    (¬a < |c| → (normalize a c p s).a = a ∧ (normalize a c p s).c = c ∧
      (normalize a c p s).p = p) ∧
    (¬a < |c| → c = 0 ∧ a = 0 →
      (normalize a c p s).s = p / twoMathPi * Real.arcsin 1 ∧
      (normalize a c p s).s = p / 4) ∧
    (¬a < |c| → ¬(c = 0 ∧ a = 0) →
      (normalize a c p s).s = p / twoMathPi * Real.arcsin (c / a)) := by
  have hs4 : p / twoMathPi * Real.arcsin 1 = p / 4 := by
    rw [Real.arcsin_one]
    unfold twoMathPi
    have hpi := Real.pi_ne_zero
    field_simp
    ring
  refine ⟨fun h => ?_, fun h => ?_, fun h h0 => ?_, fun h h0 => ?_⟩
  · unfold normalize
    rw [if_pos h]
  · unfold normalize
    rw [if_neg h]
    by_cases h0 : c = 0 ∧ a = 0
    · rw [if_pos h0]
      exact ⟨rfl, rfl, rfl⟩
    · rw [if_neg h0]
      exact ⟨rfl, rfl, rfl⟩
  · unfold normalize
    rw [if_neg h, if_pos h0]
    exact ⟨rfl, hs4⟩
  · unfold normalize
    rw [if_neg h, if_neg h0]

/-- Witness for the amended claim C5 at a = 3, c = -5, p = 1, s = 1. -/
theorem normalize_branches_witness :
    (3 : ℝ) < |(-5 : ℝ)| ∧ normalize 3 (-5) 1 1 = ⟨-5, -5, 1, 1 / 4⟩ := by
  have habs : (3 : ℝ) < |(-5 : ℝ)| := by
    rw [abs_of_neg (by norm_num : (-5 : ℝ) < 0)]
    norm_num
  exact ⟨habs, (normalize_branches 3 (-5) 1 1).1 habs⟩

/-- Claim C6, counterexample: inside the second bounce segment
(normalized time in [1/2.75, 2/2.75) = [4/11, 8/11)), with b = 1, c = 1,
d = 1, the curve decreases from 2 at t = 4/11 to 1.75 at t = 6/11, so
easeOutBounce is not monotonically non-decreasing within that segment. -/
theorem easeOutBounce_dip_counterexample :
    (1 : ℚ) / 2.75 ≤ 4 / 11 ∧ ((6 : ℚ) / 11) / 1 < 2 / 2.75 ∧
      (4 : ℚ) / 11 ≤ 6 / 11 ∧
      easeOutBounce (6 / 11) 1 1 1 < easeOutBounce (4 / 11) 1 1 1 := by
  refine ⟨by norm_num, by norm_num, by norm_num, ?_⟩
  norm_num [easeOutBounce]

/-- On its first segment, easeOutBounce computes the first quadratic. -/
theorem easeOutBounce_seg1_eq (t b c d : ℚ) (h : t / d < 1 / 2.75) :
    easeOutBounce t b c d = c * (7.5625 * (t / d) * (t / d)) + b := by
  unfold easeOutBounce
  rw [if_pos h]

/-- On its second segment, easeOutBounce computes the second quadratic. -/
theorem easeOutBounce_seg2_eq (t b c d : ℚ) (h1 : 1 / 2.75 ≤ t / d)
    (h2 : t / d < 2 / 2.75) :
    easeOutBounce t b c d =
      c * (7.5625 * (t / d - 1.5 / 2.75) * (t / d - 1.5 / 2.75) + 0.75) + b := by
  unfold easeOutBounce
  rw [if_neg (not_lt.2 h1), if_pos h2]

/-- On its third segment, easeOutBounce computes the third quadratic. -/
theorem easeOutBounce_seg3_eq (t b c d : ℚ) (h1 : 2 / 2.75 ≤ t / d)
    (h2 : t / d < 2.5 / 2.75) :
    easeOutBounce t b c d =
      c * (7.5625 * (t / d - 2.25 / 2.75) * (t / d - 2.25 / 2.75) + 0.9375) + b := by
  unfold easeOutBounce
  rw [if_neg (not_lt.2 (le_trans (by norm_num : (1 : ℚ) / 2.75 ≤ 2 / 2.75) h1)),
    if_neg (not_lt.2 h1), if_pos h2]

/-- On its fourth segment, easeOutBounce computes the fourth quadratic. -/
theorem easeOutBounce_seg4_eq (t b c d : ℚ) (h1 : 2.5 / 2.75 ≤ t / d) :
    easeOutBounce t b c d =
      c * (7.5625 * (t / d - 2.625 / 2.75) * (t / d - 2.625 / 2.75) + 0.984375) + b := by
  unfold easeOutBounce
  rw [if_neg (not_lt.2 (le_trans (by norm_num : (1 : ℚ) / 2.75 ≤ 2.5 / 2.75) h1)),
    if_neg (not_lt.2 (le_trans (by norm_num : (2 : ℚ) / 2.75 ≤ 2.5 / 2.75) h1)),
    if_neg (not_lt.2 h1)]

/-- Claim C6 (amended): for d > 0 and c > 0, each of the four segments of
easeOutBounce is a convex quadratic in t: the first segment (whose vertex
is at t = 0) is non-decreasing throughout, while segments two to four
decrease until the segment's vertex (at normalized times 1.5/2.75,
2.25/2.75, 2.625/2.75) and are non-decreasing from the vertex on; and at
t = d the final segment reaches exactly c + b. -/
theorem easeOutBounce_segments (b c d : ℚ) (hd : 0 < d) (hc : 0 < c) :
    (∀ s t, 0 ≤ s → s ≤ t → t / d < 1 / 2.75 →
      easeOutBounce s b c d ≤ easeOutBounce t b c d) ∧
    (∀ s t, 1 / 2.75 ≤ s / d → s ≤ t → t / d ≤ 1.5 / 2.75 →
      easeOutBounce t b c d ≤ easeOutBounce s b c d) ∧
    (∀ s t, 1.5 / 2.75 ≤ s / d → s ≤ t → t / d < 2 / 2.75 →
      easeOutBounce s b c d ≤ easeOutBounce t b c d) ∧
    (∀ s t, 2 / 2.75 ≤ s / d → s ≤ t → t / d ≤ 2.25 / 2.75 →
      easeOutBounce t b c d ≤ easeOutBounce s b c d) ∧
    (∀ s t, 2.25 / 2.75 ≤ s / d → s ≤ t → t / d < 2.5 / 2.75 →
      easeOutBounce s b c d ≤ easeOutBounce t b c d) ∧
    (∀ s t, 2.5 / 2.75 ≤ s / d → s ≤ t → t / d ≤ 2.625 / 2.75 →
      easeOutBounce t b c d ≤ easeOutBounce s b c d) ∧
    (∀ s t, 2.625 / 2.75 ≤ s / d → s ≤ t → t / d ≤ 1 →
      easeOutBounce s b c d ≤ easeOutBounce t b c d) ∧
    easeOutBounce d b c d = c + b := by
  refine ⟨?_, ?_, ?_, ?_, ?_, ?_, ?_, ?_⟩
  · intro s t h1 h2 h3
    have hsd := div_le_div_of_le_pos h2 hd
    have hs0 : (0 : ℚ) ≤ s / d := div_nonneg h1 hd.le
    have hq := quad_vertex_mono hsd hs0
    rw [easeOutBounce_seg1_eq s b c d (lt_of_le_of_lt hsd h3),
      easeOutBounce_seg1_eq t b c d h3]
    nlinarith [hq, hc.le]
  · intro s t h1 h2 h3
    have hsd := div_le_div_of_le_pos h2 hd
    have hq := quad_vertex_anti hsd h3
    rw [easeOutBounce_seg2_eq s b c d h1 (by nlinarith : s / d < 2 / 2.75),
      easeOutBounce_seg2_eq t b c d (le_trans h1 hsd)
        (by nlinarith : t / d < 2 / 2.75)]
    nlinarith [hq, hc.le]
  · intro s t h1 h2 h3
    have hsd := div_le_div_of_le_pos h2 hd
    have hq := quad_vertex_mono hsd h1
    rw [easeOutBounce_seg2_eq s b c d (by nlinarith : (1 : ℚ) / 2.75 ≤ s / d)
        (lt_of_le_of_lt hsd h3),
      easeOutBounce_seg2_eq t b c d (by nlinarith : (1 : ℚ) / 2.75 ≤ t / d) h3]
    nlinarith [hq, hc.le]
  · intro s t h1 h2 h3
    have hsd := div_le_div_of_le_pos h2 hd
    have hq := quad_vertex_anti hsd h3
    rw [easeOutBounce_seg3_eq s b c d h1 (by nlinarith : s / d < 2.5 / 2.75),
      easeOutBounce_seg3_eq t b c d (le_trans h1 hsd)
        (by nlinarith : t / d < 2.5 / 2.75)]
    nlinarith [hq, hc.le]
  · intro s t h1 h2 h3
    have hsd := div_le_div_of_le_pos h2 hd
    have hq := quad_vertex_mono hsd h1
    rw [easeOutBounce_seg3_eq s b c d (by nlinarith : (2 : ℚ) / 2.75 ≤ s / d)
        (lt_of_le_of_lt hsd h3),
      easeOutBounce_seg3_eq t b c d (by nlinarith : (2 : ℚ) / 2.75 ≤ t / d) h3]
    nlinarith [hq, hc.le]
  · intro s t h1 h2 h3
    have hsd := div_le_div_of_le_pos h2 hd
    have hq := quad_vertex_anti hsd h3
    rw [easeOutBounce_seg4_eq s b c d h1,
      easeOutBounce_seg4_eq t b c d (le_trans h1 hsd)]
    nlinarith [hq, hc.le]
  · intro s t h1 h2 h3
    have hsd := div_le_div_of_le_pos h2 hd
    have hq := quad_vertex_mono hsd h1
    rw [easeOutBounce_seg4_eq s b c d (by nlinarith : (2.5 : ℚ) / 2.75 ≤ s / d),
      easeOutBounce_seg4_eq t b c d (by nlinarith : (2.5 : ℚ) / 2.75 ≤ t / d)]
    nlinarith [hq, hc.le]
  · have h1 : (2.5 : ℚ) / 2.75 ≤ d / d := by
      rw [div_self hd.ne']
      norm_num
    rw [easeOutBounce_seg4_eq d b c d h1, div_self hd.ne']
    norm_num

/-- Witness for the amended claim C6 at b = 0, c = 1, d = 1: the final
segment reaches 1 + 0 at t = d. -/
theorem easeOutBounce_segments_witness :
    (0 : ℚ) < 1 ∧ (0 : ℚ) < 1 ∧ easeOutBounce 1 0 1 1 = 1 + 0 :=
  ⟨by norm_num, by norm_num,
    (easeOutBounce_segments 0 1 1 (by norm_num) (by norm_num)).2.2.2.2.2.2.2⟩

end FabricSpec
